import Mathlib

/-!
Shallow embedding of the Rust-Std repository: `src/Option.js` (the exported
module, lines 204-608 of the concatenated file) and `src/Result.js`.

Containers are plain JavaScript objects.  An `Option` instance has a single
`value` property that either exists (`Some`) or does not (`None`); a `Result`
instance has `value` and `error` properties, each either set or left unset.
The code never stores `undefined` in an occupied `Option` slot (every write
site guards against it), and `Result.isOk` tests `this.value !== void 0`, so
in both containers "slot unset" and "slot holds undefined" are observationally
identified; we therefore encode an empty slot as the value `undefined`.
-/

/-- The JavaScript values flowing through the library: the primitives the
tests exercise, `Error`-family objects (tagged with their constructor name),
`Option` instances (`opt slot`, where `slot = undefined` encodes the absent
`value` property) and `Result` instances (`res value error`, with `undefined`
encoding an unset slot). -/
inductive JSVal : Type where
  | undefined : JSVal
  | null : JSVal
  | bool : Bool → JSVal
  | num : Int → JSVal
  | str : String → JSVal
  | err : String → JSVal
  | opt : JSVal → JSVal
  | res : JSVal → JSVal → JSVal
  deriving DecidableEq, Repr

/-- Faults the library can raise: `TypeError`, `SyntaxError` and plain
`Error` constructions, plus `Result#try`-style re-raising of a stored value. -/
inductive JSErr : Type where
  | jsTypeError : String → JSErr
  | jsSynError : String → JSErr
  | jsError : String → JSErr
  | jsThrow : JSVal → JSErr
  deriving DecidableEq, Repr

/-- JavaScript truthiness: `undefined`, `null`, `false`, `0` and the empty
string are falsy; every object (including both containers) is truthy. -/
def truthy : JSVal → Bool
  | .undefined => false
  | .null => false
  | .bool b => b
  | .num n => n != 0
  | .str s => s != ""
  | _ => true

/-- `_isOption(x)`: `x != null && x.constructor.name === 'Option'`
(`Option.js` line 558). -/
def isOptionVal : JSVal → Bool
  | .opt _ => true
  | _ => false

/-- `_isResult(x)`: `x != null && x.constructor.name === 'Result'`
(`Result.js` line 234). -/
def isResultVal : JSVal → Bool
  | .res _ _ => true
  | _ => false

/-- Reading the `value` property of an `Option` instance; an unset property
reads as `undefined`, which the `undefined` slot encoding already is. -/
def optSlot : JSVal → JSVal
  | .opt s => s
  | _ => .undefined

/-- Reading the `value` property of a `Result` instance. -/
def resValue : JSVal → JSVal
  | .res v _ => v
  | _ => .undefined

/-- Reading the `error` property of a `Result` instance. -/
def resError : JSVal → JSVal
  | .res _ e => e
  | _ => .undefined

/-- `x.constructor.name` for values on which the access does not fault. -/
def ctorNameP : JSVal → String
  | .bool _ => "Boolean"
  | .num _ => "Number"
  | .str _ => "String"
  | .err n => n
  | .opt _ => "Option"
  | .res _ _ => "Result"
  | .undefined => ""
  | .null => ""

/-- `Function.prototype.toString` output for the `Option` class, i.e. the
entire class source text of `Option.js`.  Abbreviated here to representative
fragments; the program only ever applies a substring test for "Error" to this
string (`Result.from`), and the real class body contains "Error" many times
(`throw Error(message)`, `throw TypeError(...)`, ...). -/
def optionClassSrc : String :=
  "class Option ... expect(message) ... throw Error(message) ... throw TypeError(Expected Option type) ..."

/-- `Function.prototype.toString` output for the `Result` class (the class
source text of `Result.js`), abbreviated like `optionClassSrc`; the real body
contains "Error" many times (`throw TypeError(...)`, `throw Error(...)`). -/
def resultClassSrc : String :=
  "class Result ... unwrap() ... throw Error(Called unwrap on an Err value) ... throw TypeError(Expected Result) ..."

/-- `val.constructor.toString()`: faults on `undefined`/`null` (no
`constructor` property), returns the native-code stub for primitives, the
constructor-name stub for `Error`-family objects, and the class source text
for container instances. -/
def ctorToString : JSVal → Except JSErr String
  | .undefined => .error (.jsTypeError "Cannot read properties of undefined")
  | .null => .error (.jsTypeError "Cannot read properties of null")
  | .bool _ => .ok "function Boolean() { [native code] }"
  | .num _ => .ok "function Number() { [native code] }"
  | .str _ => .ok "function String() { [native code] }"
  | .err n => .ok ("function " ++ n ++ "() { [native code] }")
  | .opt _ => .ok optionClassSrc
  | .res _ _ => .ok resultClassSrc

/-- Auxiliary for `strContains`: `pat` is a leading segment of `s`. -/
def strHasLead : List Char → List Char → Bool
  | [], _ => true
  | _ :: _, [] => false
  | a :: as, b :: bs => a == b && strHasLead as bs

/-- Auxiliary for `strContains`: `pat` occurs contiguously inside `s`. -/
def strHasPart (pat : List Char) : List Char → Bool
  | [] => strHasLead pat []
  | b :: bs => strHasLead pat (b :: bs) || strHasPart pat bs

/-- `s.includes(pat)`. -/
def strContains (s pat : String) : Bool :=
  strHasPart pat.toList s.toList

/-- `this instanceof target` inside a call to factory function `factory`:
with `new factory(...)` the fresh receiver has `factory.prototype` as its
prototype, so it is an instance of `target` exactly when the two coincide;
without `new` the receiver is the module context, an instance of neither. -/
def thisInstanceOf (calledWithNew : Bool) (factory target : String) : Bool :=
  calledWithNew && factory == target

/-- The identity callback `v => v` used by the idempotence property. -/
def idJS : JSVal → JSVal := fun v => v

/-- A constant callback `_ => c`. -/
def constFn (c : JSVal) : JSVal → JSVal := fun _ => c

/-- `Result#isOk` (`Result.js` lines 14-16): `this.value !== void 0`.
A method invocation always has a `Result` receiver; the non-`res` cases mirror
the `undefined` read of a missing property. -/
def JSResult.isOk (r : JSVal) : Bool :=
  resValue r != .undefined

/-- `Result#isErr` (`Result.js` lines 19-21): `!this.isOk()`. -/
def JSResult.isErr (r : JSVal) : Bool :=
  !(JSResult.isOk r)

/-- The `Ok(value)` factory body after its `new` guard (`Result.js` lines
238-250): a failing nested `Result` collapses to a failure carrying its
`unwrapErr()`, every other argument lands in the value slot. -/
def OkF (value : JSVal) : JSVal :=
  if isResultVal value && JSResult.isErr value then .res .undefined (resError value)
  else .res value .undefined

/-- The `Err(error)` factory body after its `new` guard (`Result.js` lines
252-264): a succeeding nested `Result` collapses to a success carrying its
`unwrap()`, every other argument lands in the error slot. -/
def ErrF (error : JSVal) : JSVal :=
  if isResultVal error && JSResult.isOk error then .res (resValue error) .undefined
  else .res .undefined error

/-- `Option#isSome` (`Option.js` lines 222-224): `'value' in this`; with the
slot encoding, the `value` property exists exactly when the slot is not
`undefined`. -/
def JSOption.isSome (o : JSVal) : Bool :=
  optSlot o != .undefined

/-- `Option#isNone` (`Option.js` lines 227-229): `!this.isSome()`. -/
def JSOption.isNone (o : JSVal) : Bool :=
  !(JSOption.isSome o)

/-- The `None()` factory body (`Option.js` lines 568-573): `new Option(void 0)`,
arguments ignored. -/
def NoneF : JSVal := .opt .undefined

/-- `Option#unwrapOr` (`Option.js` lines 256-261). -/
def JSOption.unwrapOr (o alt : JSVal) : JSVal :=
  if JSOption.isSome o then optSlot o else alt

/-- `Option#unwrap` (`Option.js` lines 247-252). -/
def JSOption.unwrap (o : JSVal) : Except JSErr JSVal :=
  if JSOption.isSome o then .ok (optSlot o)
  else .error (.jsError "Called Option unwrap on a None value")

/-- The `Some(value)` factory body after its `new` guard (`Option.js` lines
575-589): rejects the absent-marker with a `TypeError`; an `Option` argument
is built from `value.unwrapOr(void 0)` — one level of optional nesting is
unwrapped, a `None` argument yields `None`. -/
def SomeF (value : JSVal) : Except JSErr JSVal :=
  if value = .undefined then
    .error (.jsTypeError "Cannot construct Some with undefined argument, instead use None")
  else if isOptionVal value then .ok (.opt (JSOption.unwrapOr value .undefined))
  else .ok (.opt value)

/-- The full `None` factory (`Option.js` lines 568-573) including the guard
`if (this instanceof None) throw SyntaxError(...)`. -/
def NoneFactory (calledWithNew : Bool) : Except JSErr JSVal :=
  if thisInstanceOf calledWithNew "None" "None" then
    .error (.jsSynError "Cannot use new keyword with None")
  else .ok NoneF

/-- The full `Some` factory (`Option.js` lines 575-589) including the guard
`if (this instanceof Some) throw SyntaxError(...)`. -/
def SomeFactory (calledWithNew : Bool) (value : JSVal) : Except JSErr JSVal :=
  if thisInstanceOf calledWithNew "Some" "Some" then
    .error (.jsSynError "Cannot use new keyword with Some")
  else SomeF value

/-- The full `Ok` factory (`Result.js` lines 238-250) including the guard
`if (this instanceof Ok) throw SyntaxError(...)`. -/
def OkFactory (calledWithNew : Bool) (value : JSVal) : Except JSErr JSVal :=
  if thisInstanceOf calledWithNew "Ok" "Ok" then
    .error (.jsSynError "Cannot use new keyword with Ok")
  else .ok (OkF value)

/-- The full `Err` factory (`Result.js` lines 252-264).  The source guard at
line 253 reads `if (this instanceof Ok)` — it tests `Ok`, not `Err` — so the
model's guard asks whether the `Err` receiver is an instance of `Ok`. -/
def ErrFactory (calledWithNew : Bool) (error : JSVal) : Except JSErr JSVal :=
  if thisInstanceOf calledWithNew "Err" "Ok" then
    .error (.jsSynError "Cannot use new keyword with Err")
  else .ok (ErrF error)

/-- `Option#map` (`Option.js` lines 276-281): present applies `fn` and feeds
the result to the `Some` factory; absent returns the receiver. -/
def JSOption.map (o : JSVal) (fn : JSVal → JSVal) : Except JSErr JSVal :=
  if JSOption.isSome o then SomeF (fn (optSlot o))
  else .ok o

/-- `Option#getOrInsert` (`Option.js` lines 436-450), as a state transformer:
the result pairs the receiver state after the call with the returned value. -/
def JSOption.getOrInsert (o v : JSVal) : Except JSErr (JSVal × JSVal) :=
  if v = .undefined then .error (.jsTypeError "Expected v not to be undefined")
  else
    let slot := if JSOption.isNone o then v else optSlot o
    if slot = .undefined then .error (.jsError "unreachable")
    else .ok (.opt slot, slot)

/-- `Option#getOrInsertWith` (`Option.js` lines 454-480), as a state
transformer; `computed` is the value the zero-argument callback returns (the
callback is invoked only when the receiver is absent).  A computed `Option`
must be present — its `unwrap()` is stored — and a computed absent-marker is
rejected; any other computed value is stored as is. -/
def JSOption.getOrInsertWith (o computed : JSVal) : Except JSErr (JSVal × JSVal) :=
  if JSOption.isNone o then
    if computed = .undefined then
      .error (.jsTypeError "Expected value computed from fn not to be undefined")
    else if isOptionVal computed then
      if JSOption.isNone computed then
        .error (.jsTypeError "Expected Option returned from fn not to be None variant")
      else if optSlot computed = .undefined then .error (.jsError "unreachable")
      else .ok (.opt (optSlot computed), optSlot computed)
    else .ok (.opt computed, computed)
  else if optSlot o = .undefined then .error (.jsError "unreachable")
  else .ok (.opt (optSlot o), optSlot o)

/-- `Option#take` (`Option.js` lines 487-494), as a state transformer: absent
returns the receiver unchanged; present deletes the slot and returns the
`Some` factory applied to the old value. -/
def JSOption.take (o : JSVal) : Except JSErr (JSVal × JSVal) :=
  if JSOption.isNone o then .ok (o, o)
  else
    match SomeF (optSlot o) with
    | .ok r => .ok (.opt .undefined, r)
    | .error e => .error e

/-- `Option#transpose` (`Option.js` lines 521-541): absent maps to
`Ok(this)`; a contained success maps to `Ok(Some(value))`, a contained
failure to `Err(error)`; a contained non-`Result` raises a `TypeError` (and a
contained `null` faults on the `constructor` access). -/
def JSOption.transpose (o : JSVal) : Except JSErr JSVal :=
  if JSOption.isNone o then .ok (OkF o)
  else
    match optSlot o with
    | .res v e =>
        if v = .undefined then .ok (ErrF e)
        else
          match SomeF v with
          | .ok s => .ok (OkF s)
          | .error fault => .error fault
    | .null => .error (.jsTypeError "Cannot read properties of null")
    | .undefined => .error (.jsTypeError "Cannot read properties of undefined")
    | other =>
        .error (.jsTypeError
          ("Expected contained value to have type Result, instead is " ++ ctorNameP other))

/-- `Result#map` (`Result.js` lines 28-33). -/
def JSResult.map (r : JSVal) (fn : JSVal → JSVal) : JSVal :=
  if JSResult.isOk r then OkF (fn (resValue r)) else r

/-- `Result#mapErr` (`Result.js` lines 36-41). -/
def JSResult.mapErr (r : JSVal) (fn : JSVal → JSVal) : JSVal :=
  if JSResult.isErr r then ErrF (fn (resError r)) else r

/-- `Result#and` (`Result.js` lines 73-78). -/
def JSResult.and (self rhs : JSVal) : JSVal :=
  if JSResult.isErr self then self else rhs

/-- `Result#or` (`Result.js` lines 100-105).  The source tests the
truthiness of the `error` properties (`if (this.error && rhs.error)`,
`if (this.error)`, `if (rhs.error)`), not `isErr()`. -/
def JSResult.or (self rhs : JSVal) : JSVal :=
  if truthy (resError self) && truthy (resError rhs) then rhs
  else if truthy (resError self) then rhs
  else if truthy (resError rhs) then self
  else self

/-- One call to `next()` of the iterator built by `Result[Symbol.iterator]`
(`Result.js` lines 54-66).  The state is the captured `taken` flag; the
result pairs the new flag with `some x` for a yielded element and `none` for
a done signal.  The source yields once unconditionally — the value slot when
`isOk()`, otherwise the error slot — and is done afterwards. -/
def JSResult.iterNext (r : JSVal) (taken : Bool) : Bool × Option JSVal :=
  if !taken then (true, some (if JSResult.isOk r then resValue r else resError r))
  else (taken, none)

/-- `Result#transpose` (`Result.js` lines 192-211): a failure maps to
`Some(this)`; a contained present optional maps to `Some(Ok(value))`, a
contained absent optional to `None()`; a contained non-`Option` raises a
`TypeError` (and a contained `null` faults on the `constructor` access). -/
def JSResult.transpose (r : JSVal) : Except JSErr JSVal :=
  if JSResult.isErr r then SomeF r
  else
    match resValue r with
    | .opt s =>
        if s = .undefined then .ok NoneF
        else SomeF (OkF s)
    | .null => .error (.jsTypeError "Cannot read properties of null")
    | .undefined => .error (.jsTypeError "Cannot read properties of undefined")
    | other =>
        .error (.jsTypeError
          ("Expected contained value to have type Option, instead is" ++ ctorNameP other))

/-- Static `Result.from(val)` (`Result.js` lines 226-231): classifies by
`val.constructor.toString().includes('Error')` — a substring test on the
source text of the constructor, not on its name. -/
def JSResult.fromVal (val : JSVal) : Except JSErr JSVal :=
  match ctorToString val with
  | .error fault => .error fault
  | .ok s => if strContains s "Error" then .ok (ErrF val) else .ok (OkF val)

/-- The left-hand side of the round-trip property:
`success(present(v)).transpose()`, i.e. `Ok(Some(v)).transpose()` with the
factory evaluation order of the expression. -/
def roundtripLHS (v : JSVal) : Except JSErr JSVal :=
  match SomeF v with
  | .ok p => JSResult.transpose (OkF p)
  | .error fault => .error fault

/-- Outcome containers reachable through the public factories and closed
under the combinators of `Result.js` whose results are built inside the
class itself (`map`, `mapErr`, `and`, `or`).  The remaining combinators
(`andThen`, `orElse`, static `try`, static `from`) return either one of
these containers or a callback result; the `Result` class itself is not
exported, so a callback can only produce instances through the `Ok`/`Err`
factories — such results are again covered by the factory constructors. -/
inductive RReach : JSVal → Prop where
  | ok : ∀ a, RReach (OkF a)
  | err : ∀ a, RReach (ErrF a)
  | map : ∀ r f, RReach r → RReach (JSResult.map r f)
  | mapErr : ∀ r f, RReach r → RReach (JSResult.mapErr r f)
  | and : ∀ r s, RReach r → RReach s → RReach (JSResult.and r s)
  | or : ∀ r s, RReach r → RReach s → RReach (JSResult.or r s)

/-- The slot discipline a reachable outcome container actually enjoys: it is
a `Result` instance, at most one slot is occupied, and `isOk`/`isErr` report
value-slot occupancy and its complement. -/
def resWF (r : JSVal) : Prop :=
  ∃ v e, r = .res v e ∧ (v = .undefined ∨ e = .undefined)
    ∧ (JSResult.isOk r = true ↔ v ≠ .undefined)
    ∧ (JSResult.isErr r = true ↔ v = .undefined)

lemma resWF_res (v e : JSVal) (h : v = .undefined ∨ e = .undefined) : resWF (.res v e) := by
  refine ⟨v, e, rfl, h, ?_, ?_⟩ <;>
    simp [JSResult.isOk, JSResult.isErr, resValue]

lemma resWF_okF (a : JSVal) : resWF (OkF a) := by
  cases a with
  | res v e =>
      by_cases hvu : v = .undefined
      · have hred : OkF (.res v e) = .res .undefined e := by
          simp [OkF, isResultVal, JSResult.isErr, JSResult.isOk, resValue, resError, hvu]
        rw [hred]; exact resWF_res _ _ (Or.inl rfl)
      · have hred : OkF (.res v e) = .res (.res v e) .undefined := by
          simp [OkF, isResultVal, JSResult.isErr, JSResult.isOk, resValue, hvu]
        rw [hred]; exact resWF_res _ _ (Or.inr rfl)
  | undefined => exact resWF_res _ _ (Or.inr rfl)
  | null => exact resWF_res _ _ (Or.inr rfl)
  | bool b => exact resWF_res _ _ (Or.inr rfl)
  | num n => exact resWF_res _ _ (Or.inr rfl)
  | str s => exact resWF_res _ _ (Or.inr rfl)
  | err n => exact resWF_res _ _ (Or.inr rfl)
  | opt s => exact resWF_res _ _ (Or.inr rfl)

lemma resWF_errF (a : JSVal) : resWF (ErrF a) := by
  cases a with
  | res v e =>
      by_cases hvu : v = .undefined
      · have hred : ErrF (.res v e) = .res .undefined (.res v e) := by
          simp [ErrF, isResultVal, JSResult.isOk, resValue, hvu]
        rw [hred]; exact resWF_res _ _ (Or.inl rfl)
      · have hred : ErrF (.res v e) = .res v .undefined := by
          simp [ErrF, isResultVal, JSResult.isOk, resValue, hvu]
        rw [hred]; exact resWF_res _ _ (Or.inr rfl)
  | undefined => exact resWF_res _ _ (Or.inl rfl)
  | null => exact resWF_res _ _ (Or.inl rfl)
  | bool b => exact resWF_res _ _ (Or.inl rfl)
  | num n => exact resWF_res _ _ (Or.inl rfl)
  | str s => exact resWF_res _ _ (Or.inl rfl)
  | err n => exact resWF_res _ _ (Or.inl rfl)
  | opt s => exact resWF_res _ _ (Or.inl rfl)

/-- Claim C1 (amended): every outcome container reachable through the public
factories and closed under the combinators occupies at most one of its two
slots — never both — and `isOk` reports exactly value-slot occupancy while
`isErr` reports its complement.  (The original "never neither" clause fails:
see the counterexample theorem.) -/
theorem c1_result_slot_invariant (r : JSVal) (h : RReach r) : resWF r := by
  induction h with
  | ok a => exact resWF_okF a
  | err a => exact resWF_errF a
  | map r f hr ih =>
      unfold JSResult.map
      by_cases hok : JSResult.isOk r = true
      · simp [hok]; exact resWF_okF _
      · simp [hok]; exact ih
  | mapErr r f hr ih =>
      unfold JSResult.mapErr
      by_cases herr : JSResult.isErr r = true
      · simp [herr]; exact resWF_errF _
      · simp [herr]; exact ih
  | and r s hr hs ihr ihs =>
      unfold JSResult.and
      by_cases herr : JSResult.isErr r = true
      · simp [herr]; exact ihr
      · simp [herr]; exact ihs
  | or r s hr hs ihr ihs =>
      unfold JSResult.or
      by_cases h1 : truthy (resError r) = true
      · simp [h1]; exact ihs
      · by_cases h2 : truthy (resError s) = true
        · simp [h1, h2]; exact ihr
        · simp [h1, h2]; exact ihr

/-- Witness for the amended claim C1 at the concrete container `Ok(1)`. -/
theorem c1_result_slot_invariant_witness :
    RReach (OkF (.num 1)) ∧ resWF (OkF (.num 1)) :=
  ⟨RReach.ok _, c1_result_slot_invariant _ (RReach.ok _)⟩

/-- Counterexample to claim C1 as stated: `Ok(undefined)` is reachable
through a public factory with the absent-marker as argument, yet the
resulting container occupies neither slot ("never neither" fails), and
`isErr` classifies it as a failure although the error slot is unoccupied. -/
theorem c1_counterexample :
    OkF .undefined = .res .undefined .undefined
    ∧ JSResult.isOk (.res .undefined .undefined) = false
    ∧ JSResult.isErr (.res .undefined .undefined) = true := by
  refine ⟨rfl, rfl, rfl⟩

/-- Claim C2: `Result#or` is documented ("Returns `other` if the result is
`Err`") and specified as: failure → `rhs`.  The source instead tests the
truthiness of the `error` properties, so the failure `Err(0)` — whose stored
error `0` is falsy — keeps itself instead of returning the success `Ok(1)`;
with a truthy error the documented behavior holds. -/
theorem c2_or_falsy_error :
    JSResult.or (ErrF (.num 0)) (OkF (.num 1)) = ErrF (.num 0)
    ∧ JSResult.isErr (ErrF (.num 0)) = true
    ∧ ErrF (.num 0) ≠ OkF (.num 1)
    ∧ JSResult.or (ErrF (.num 2)) (OkF (.num 1)) = OkF (.num 1) := by
  refine ⟨rfl, rfl, by decide, rfl⟩

/-- Claim C3: the `Result` iterator is specified to yield nothing on a
failure, but `next()` never consults `isErr`: its first call on `Err("boom")`
yields the stored error with `done: false`, and only the second call reports
done — a failure container iterates over exactly one element, the error.
On a success it does yield the success value once, and every iterator is
single-use. -/
theorem c3_err_iterator_yields_error :
    JSResult.iterNext (ErrF (.str "boom")) false = (true, some (.str "boom"))
    ∧ JSResult.iterNext (ErrF (.str "boom")) true = (true, none)
    ∧ JSResult.iterNext (OkF (.num 1)) false = (true, some (.num 1)) := by
  refine ⟨rfl, rfl, rfl⟩

/-- Claim C4 (amended): on a present optional, `map` feeds the callback
result to the `Some` factory, and that factory unwraps one level of optional
nesting — so when the callback returns an optional container, `map` returns
a container deep-equal to the callback result itself (same nesting depth),
not a `Present` wrapping it one level deeper. -/
theorem c4_map_feeds_some_factory (v s : JSVal) (fn : JSVal → JSVal)
    (hv : v ≠ .undefined) (hfn : fn v = .opt s) :
    JSOption.map (.opt v) fn = .ok (.opt s) := by
  have hsome : JSOption.isSome (.opt v) = true := by
    simp [JSOption.isSome, optSlot, hv]
  have hred : JSOption.map (.opt v) fn = SomeF (.opt s) := by
    rw [JSOption.map, if_pos hsome]
    rw [show optSlot (.opt v) = v from rfl, hfn]
  rw [hred]
  by_cases hs : s = .undefined <;>
    simp [SomeF, isOptionVal, JSOption.unwrapOr, JSOption.isSome, optSlot, hs]

/-- Witness for the amended claim C4 at `present(1).map(_ => present(2))`. -/
theorem c4_map_feeds_some_factory_witness :
    (JSVal.num 1) ≠ .undefined
    ∧ JSOption.map (.opt (.num 1)) (constFn (.opt (.num 2))) = .ok (.opt (.num 2)) :=
  ⟨by decide, c4_map_feeds_some_factory (.num 1) (.num 2) (constFn (.opt (.num 2))) (by decide) rfl⟩

/-- Counterexample to claim C4 as stated: `present(7).map(_ => present(9))`
returns a container deep-equal to `present(9)` — the claim predicts the
nested `present(present(9))`, which is a different container. -/
theorem c4_counterexample :
    JSOption.map (.opt (.num 7)) (constFn (.opt (.num 9))) = .ok (.opt (.num 9))
    ∧ (JSVal.opt (.num 9)) ≠ .opt (.opt (.num 9)) := by
  refine ⟨rfl, by decide⟩

/-- Claim C5 (amended): `map(identity)` returns a container deep-equal to the
receiver for every optional container whose contained value is not itself an
optional container (absent receivers included).  When the contained value is
a nested optional — reachable via `getOrInsert` — the `Some` factory inside
`map` flattens it: see the counterexample theorem. -/
theorem c5_map_identity (v : JSVal) (h : isOptionVal v = false) :
    JSOption.map (.opt v) idJS = .ok (.opt v) := by
  by_cases hv : v = .undefined
  · simp [JSOption.map, JSOption.isSome, optSlot, hv]
  · simp [JSOption.map, JSOption.isSome, optSlot, hv, idJS, SomeF, h]

/-- Witness for the amended claim C5 at `present(42)` . -/
theorem c5_map_identity_witness :
    isOptionVal (.num 42) = false
    ∧ JSOption.map (.opt (.num 42)) idJS = .ok (.opt (.num 42)) :=
  ⟨by decide, c5_map_identity (.num 42) (by decide)⟩

/-- Counterexample to claim C5 as stated: a present optional holding another
optional is reachable (`absent().getOrInsert(present(3))` stores the
container wholesale), and mapping the identity over it flattens one level, so
the result is not deep-equal to the receiver. -/
theorem c5_counterexample :
    JSOption.getOrInsert NoneF (.opt (.num 3)) = .ok (.opt (.opt (.num 3)), .opt (.num 3))
    ∧ JSOption.map (.opt (.opt (.num 3))) idJS = .ok (.opt (.num 3))
    ∧ (JSVal.opt (.num 3)) ≠ .opt (.opt (.num 3)) := by
  refine ⟨rfl, rfl, by decide⟩

/-- Claim C6 (amended): for every value `v` that is neither the absent-marker
nor itself an optional container, `success(present(v)).transpose()` deep-
equals `present(success(v))`, and `absent().transpose()` deep-equals
`success(absent())`.  (When `v` is an optional container the `present`
factory flattens it on the left-hand side only: see the counterexample.) -/
theorem c6_transpose_roundtrip (v : JSVal) (h1 : v ≠ .undefined) (h2 : isOptionVal v = false) :
    roundtripLHS v = SomeF (OkF v)
    ∧ JSOption.transpose NoneF = .ok (OkF NoneF) := by
  cases v with
  | undefined => exact absurd rfl h1
  | opt s => simp [isOptionVal] at h2
  | null => exact ⟨rfl, rfl⟩
  | bool b => exact ⟨rfl, rfl⟩
  | num n => exact ⟨rfl, rfl⟩
  | str s => exact ⟨rfl, rfl⟩
  | err n => exact ⟨rfl, rfl⟩
  | res a b => exact ⟨rfl, rfl⟩

/-- Witness for the amended claim C6 at `v = 5`. -/
theorem c6_transpose_roundtrip_witness :
    (JSVal.num 5) ≠ .undefined
    ∧ roundtripLHS (.num 5) = SomeF (OkF (.num 5)) :=
  ⟨by decide, (c6_transpose_roundtrip (.num 5) (by decide) (by decide)).1⟩

/-- Counterexample to claim C6 as stated: at `v = absent()` — a value that is
not the absent-marker — the `present` factory flattens its optional argument,
so `success(present(v)).transpose()` evaluates to `absent()` while
`present(success(v))` is a present container holding `success(absent())`. -/
theorem c6_counterexample :
    roundtripLHS NoneF = .ok NoneF
    ∧ SomeF (OkF NoneF) = .ok (.opt (.res NoneF .undefined))
    ∧ NoneF ≠ .opt (.res NoneF .undefined) := by
  refine ⟨rfl, rfl, by decide⟩

/-- Claim C7: the spec requires every factory to reject `new`-invocation with
a fault.  `None`, `Some` and `Ok` do, but the guard inside `Err` (line 253 of
`Result.js`) tests `this instanceof Ok` — a condition that is false for a
`new Err(...)` receiver — so `new Err(5)` is not rejected and returns an
ordinary failure container. -/
theorem c7_new_err_not_rejected :
    NoneFactory true = .error (.jsSynError "Cannot use new keyword with None")
    ∧ SomeFactory true (.num 1) = .error (.jsSynError "Cannot use new keyword with Some")
    ∧ OkFactory true (.num 1) = .error (.jsSynError "Cannot use new keyword with Ok")
    ∧ ErrFactory true (.num 5) = .ok (.res .undefined (.num 5)) := by
  refine ⟨rfl, rfl, rfl, rfl⟩

/-- Claim C8 (amended): `take()` on a present container holding `v` mutates
the receiver to the absent state and returns the `Some` factory applied to
`v` — a fresh present container holding `v` whenever `v` is not itself an
optional container (when it is, the factory flattens it: see the
counterexample); `take()` on an absent container returns the receiver, which
stays absent. -/
theorem c8_take (v : JSVal) (hv : v ≠ .undefined) (h : isOptionVal v = false) :
    JSOption.take (.opt v) = .ok (NoneF, .opt v)
    ∧ JSOption.take NoneF = .ok (NoneF, NoneF) := by
  constructor
  · simp [JSOption.take, JSOption.isNone, JSOption.isSome, optSlot, hv, SomeF, h, NoneF]
  · rfl

/-- Witness for the amended claim C8 at `present(2)`. -/
theorem c8_take_witness :
    (JSVal.num 2) ≠ .undefined
    ∧ JSOption.take (.opt (.num 2)) = .ok (NoneF, .opt (.num 2)) :=
  ⟨by decide, (c8_take (.num 2) (by decide) (by decide)).1⟩

/-- Counterexample to claim C8 as stated: a present container holding the
optional `present(5)` is reachable via `getOrInsert`; `take()` on it returns
the flattened `present(5)` rather than a present container holding the
stored value `present(5)` itself. -/
theorem c8_counterexample :
    JSOption.getOrInsert NoneF (.opt (.num 5)) = .ok (.opt (.opt (.num 5)), .opt (.num 5))
    ∧ JSOption.take (.opt (.opt (.num 5))) = .ok (NoneF, .opt (.num 5))
    ∧ (JSVal.opt (.num 5)) ≠ .opt (.opt (.num 5)) := by
  refine ⟨rfl, rfl, by decide⟩

/-- Claim C9 (amended): for every input value other than the absent-marker
and `null` (on which the `constructor` access faults), static
`Result.from(value)` applies the failure factory to `value` exactly when the
source text of `value`'s constructor — `constructor.toString()`, not the
constructor's name — contains "Error", and the success factory otherwise. -/
theorem c9_from_classification (val : JSVal) (h1 : val ≠ .undefined) (h2 : val ≠ .null) :
    ∃ s, ctorToString val = .ok s
      ∧ (strContains s "Error" = true → JSResult.fromVal val = .ok (ErrF val))
      ∧ (strContains s "Error" = false → JSResult.fromVal val = .ok (OkF val)) := by
  cases val with
  | undefined => exact absurd rfl h1
  | null => exact absurd rfl h2
  | bool b =>
      exact ⟨_, rfl, fun hc => by simp [JSResult.fromVal, ctorToString, hc],
        fun hc => by simp [JSResult.fromVal, ctorToString, hc]⟩
  | num n =>
      exact ⟨_, rfl, fun hc => by simp [JSResult.fromVal, ctorToString, hc],
        fun hc => by simp [JSResult.fromVal, ctorToString, hc]⟩
  | str s =>
      exact ⟨_, rfl, fun hc => by simp [JSResult.fromVal, ctorToString, hc],
        fun hc => by simp [JSResult.fromVal, ctorToString, hc]⟩
  | err n =>
      exact ⟨_, rfl, fun hc => by simp [JSResult.fromVal, ctorToString, hc],
        fun hc => by simp [JSResult.fromVal, ctorToString, hc]⟩
  | opt s =>
      exact ⟨_, rfl, fun hc => by simp [JSResult.fromVal, ctorToString, hc],
        fun hc => by simp [JSResult.fromVal, ctorToString, hc]⟩
  | res a b =>
      exact ⟨_, rfl, fun hc => by simp [JSResult.fromVal, ctorToString, hc],
        fun hc => by simp [JSResult.fromVal, ctorToString, hc]⟩

/-- Witness for the amended claim C9 at the plain number `3`, classified as a
success. -/
theorem c9_from_classification_witness :
    (JSVal.num 3) ≠ .undefined
    ∧ (∃ s, ctorToString (.num 3) = .ok s
        ∧ (strContains s "Error" = true → JSResult.fromVal (.num 3) = .ok (ErrF (.num 3)))
        ∧ (strContains s "Error" = false → JSResult.fromVal (.num 3) = .ok (OkF (.num 3)))) :=
  ⟨by decide, c9_from_classification (.num 3) (by decide) (by decide)⟩

/-- Counterexample to claim C9 as stated: the optional container
`present(3)` has runtime type name "Option", which does not contain "Error",
yet `Result.from(present(3))` returns a failure — the code tests the class
source text (`constructor.toString()`), which mentions "Error", not the type
name. -/
theorem c9_counterexample :
    JSResult.fromVal (.opt (.num 3)) = .ok (.res .undefined (.opt (.num 3)))
    ∧ JSResult.isErr (.res .undefined (.opt (.num 3))) = true
    ∧ ctorNameP (.opt (.num 3)) = "Option"
    ∧ strContains "Option" "Error" = false := by
  refine ⟨rfl, rfl, rfl, by decide⟩

/-- Claim C10: `getOrInsert(v)` on an absent container stores `v` wholesale —
an optional container argument is stored as-is, with no flattening and no
present/absent check — and the subsequent `unwrap()` returns that stored
value itself; by contrast `getOrInsertWith` unwraps a computed present
optional and rejects a computed absent one with a `TypeError`. -/
theorem c10_getOrInsert_wholesale (v s : JSVal) (hv : v ≠ .undefined) (hs : s ≠ .undefined) :
    JSOption.getOrInsert NoneF v = .ok (.opt v, v)
    ∧ JSOption.unwrap (.opt v) = .ok v
    ∧ JSOption.getOrInsertWith NoneF (.opt s) = .ok (.opt s, s)
    ∧ JSOption.getOrInsertWith NoneF NoneF
        = .error (.jsTypeError "Expected Option returned from fn not to be None variant") := by
  refine ⟨?_, ?_, ?_, rfl⟩
  · simp [JSOption.getOrInsert, JSOption.isNone, JSOption.isSome, optSlot, NoneF, hv]
  · simp [JSOption.unwrap, JSOption.isSome, optSlot, hv]
  · simp [JSOption.getOrInsertWith, JSOption.isNone, JSOption.isSome, optSlot, NoneF,
      isOptionVal, hs]

/-- Witness for claim C10 at `v = present(2)` (an optional container stored
wholesale) and computed value `present(7)` for `getOrInsertWith`. -/
theorem c10_getOrInsert_wholesale_witness :
    (JSVal.opt (.num 2)) ≠ .undefined
    ∧ JSOption.getOrInsert NoneF (.opt (.num 2)) = .ok (.opt (.opt (.num 2)), .opt (.num 2))
    ∧ JSOption.unwrap (.opt (.opt (.num 2))) = .ok (.opt (.num 2)) :=
  ⟨by decide, (c10_getOrInsert_wholesale (.opt (.num 2)) (.num 7) (by decide) (by decide)).1,
    (c10_getOrInsert_wholesale (.opt (.num 2)) (.num 7) (by decide) (by decide)).2.1⟩
